import Mathlib

/-!
Shallow embedding of the language-detection core of
`frontend/pages/CodeAnalysis.tsx` from the DeepCodeX repository:
the ordered pattern registry `LANGUAGE_PATTERNS`, the prose heuristic
`isPlainText`, and the classifier `detectLanguage`.

JavaScript regular expressions are modelled by a small complete-backtracking
matcher over `List Char`.  A `Matcher` consumes a prefix of the input and
returns every possible remainder, so a regex matches at a position exactly
when the matcher returns a non-empty list there; `RegExp.prototype.test` is
modelled by trying the pattern at every start position.  JS `\s`, `\w`,
word boundaries, the `m` flag (`^` and `$` at line boundaries) and the
lookbehind used by the Python pattern are modelled explicitly.  Strings are
modelled as their lists of code points; every pattern of the source consists
of ASCII literals and character classes, so this coincides with the UTF-16
semantics of JS on the inputs of interest.
-/

namespace DeepCodeX

/-- JS regex class `\s` (the ASCII part; the classified texts contain no
exotic space code points). -/
def jsSpace (c : Char) : Bool :=
  c = ' ' || c = '\t' || c = '\n' || c = '\r' || c = '\x0b' || c = '\x0c'

/-- JS regex class `\w`, i.e. `[A-Za-z0-9_]`. -/
def jsWord (c : Char) : Bool :=
  c.isAlpha || c.isDigit || c = '_'

/-- JS regex `.` : any character except a line terminator. -/
def jsDot (c : Char) : Bool :=
  !(c = '\n' || c = '\r' || c = '\u2028' || c = '\u2029')

/-- A JS line terminator (relevant for the `m` flag). -/
def lineTerm (c : Char) : Bool :=
  c = '\n' || c = '\r' || c = '\u2028' || c = '\u2029'

/-- The apostrophe character U+0027. -/
def apos : Char := Char.ofNat 39

/-- A nondeterministic matcher: all possible remainders of the input after
consuming a matching prefix. -/
def Matcher : Type := List Char → List (List Char)

/-- Matches the empty word. -/
def mEps : Matcher := fun cs => [cs]

/-- Matches nothing. -/
def mFail : Matcher := fun _ => []

/-- A literal sequence of characters. -/
def mLit (pat : List Char) : Matcher := fun cs =>
  if pat.isPrefixOf cs then [cs.drop pat.length] else []

/-- A literal given as a string. -/
def lit (pat : String) : Matcher := mLit pat.data

/-- A literal single character. -/
def litc (c : Char) : Matcher := mLit [c]

/-- A character class. -/
def mCls (p : Char → Bool) : Matcher := fun cs =>
  match cs with
  | [] => []
  | c :: rest => if p c then [rest] else []

/-- Concatenation. -/
def mSeq (a b : Matcher) : Matcher := fun cs => (a cs).flatMap b

/-- Alternation. -/
def mAlt (a b : Matcher) : Matcher := fun cs => a cs ++ b cs

/-- Alternation over a list of alternatives. -/
def mAlts : List Matcher → Matcher
  | [] => mFail
  | m :: ms => mAlt m (mAlts ms)

/-- Concatenation of a list of parts. -/
def mSeqs : List Matcher → Matcher
  | [] => mEps
  | m :: ms => mSeq m (mSeqs ms)

/-- An optional part (`(…)?`). -/
def mOpt (a : Matcher) : Matcher := fun cs => cs :: a cs

/-- All remainders after consuming 0, 1, … characters of class `p`:
the class star `p*`. -/
def starRem (p : Char → Bool) : List Char → List (List Char)
  | [] => [[]]
  | c :: rest => if p c then (c :: rest) :: starRem p rest else [c :: rest]

/-- Class star `p*`. -/
def mStar (p : Char → Bool) : Matcher := starRem p

/-- Class plus `p+`. -/
def mPlus (p : Char → Bool) : Matcher := mSeq (mCls p) (mStar p)

/-- Anchor `$` without the `m` flag: end of input. -/
def mEnd : Matcher := fun cs =>
  match cs with
  | [] => [[]]
  | _ :: _ => []

/-- Anchor `$` with the `m` flag: end of input or before a line terminator. -/
def mEndM : Matcher := fun cs =>
  match cs with
  | [] => [[]]
  | c :: _ => if lineTerm c then [cs] else []

/-- A word boundary `\b` placed where the preceding pattern character is a
word character: the match must not continue into a word character.
Consumes nothing. -/
def mNotWordNext : Matcher := fun cs =>
  match cs with
  | [] => [[]]
  | c :: _ => if jsWord c then [] else [cs]

/-- Is the result list of a matcher non-empty, i.e. did it match. -/
def nonNil : List (List Char) → Bool
  | [] => false
  | _ :: _ => true

/-- Anchored test (pattern starting with `^` without the `m` flag). -/
def atStart (m : Matcher) (cs : List Char) : Bool := nonNil (m cs)

/-- Unanchored `RegExp.prototype.test`: try the pattern at every position. -/
def search (m : Matcher) : List Char → Bool
  | [] => nonNil (m [])
  | c :: rest => nonNil (m (c :: rest)) || search m rest

/-- Context-aware test for patterns some of whose alternatives inspect the
previous character (`^` under the `m` flag, `\b`, lookbehind). -/
def searchCtx (m : Option Char → Matcher) : Option Char → List Char → Bool
  | prev, [] => nonNil (m prev [])
  | prev, c :: rest => nonNil (m prev (c :: rest)) || searchCtx m (some c) rest

/-- `^` under the `m` flag holds at a position with this previous character. -/
def lineStart : Option Char → Bool
  | none => true
  | some c => lineTerm c

/-- `\b` before a word character holds at a position with this previous
character. -/
def wordBoundaryBefore : Option Char → Bool
  | none => true
  | some c => !jsWord c

/-- The lookbehind `(?<![.\w])` of the Python pattern. -/
def notAfterDotWord : Option Char → Bool
  | none => true
  | some c => !(c = '.' || jsWord c)

/-- Enable a matcher only when a context condition holds. -/
def gate (b : Bool) (m : Matcher) : Matcher := if b then m else mFail

/-- Case-insensitive prefix stripping (the `i` flag, ASCII case folding). -/
def ciTake : List Char → List Char → Option (List Char)
  | [], cs => some cs
  | _ :: _, [] => none
  | p :: ps, c :: cs => if c.toLower = p.toLower then ciTake ps cs else none

/-- Case-insensitive literal. -/
def mLitCI (pat : List Char) : Matcher := fun cs =>
  match ciTake pat cs with
  | some r => [r]
  | none => []

/-- Shorthand for `\s*`. -/
def spc : Matcher := mStar jsSpace

/-- Shorthand for `\s+`. -/
def spc1 : Matcher := mPlus jsSpace

/-- Shorthand for `\w+`. -/
def wrd1 : Matcher := mPlus jsWord

/-- The class `["']`. -/
def quoteCls : Matcher := mCls (fun c => c = '"' || c = apos)

/-- Language descriptor, source interface `LanguageInfo`
(`monacoId` is the editor mode id of the spec). -/
structure LanguageInfo where
  name : String
  monacoId : String
  icon : String
  color : String
deriving DecidableEq

/-- One entry of `LANGUAGE_PATTERNS`: a text predicate and a descriptor. -/
structure PatternRule where
  pattern : String → Bool
  lang : LanguageInfo

def javaLang : LanguageInfo := ⟨"Java", "java", "☕", "#B07219"⟩
def cppLang : LanguageInfo := ⟨"C++", "cpp", "⚡", "#F34B7D"⟩
def cLang : LanguageInfo := ⟨"C", "c", "🔧", "#555555"⟩
def tsLang : LanguageInfo := ⟨"TypeScript", "typescript", "📘", "#3178C6"⟩
def goLang : LanguageInfo := ⟨"Go", "go", "🐹", "#00ADD8"⟩
def rustLang : LanguageInfo := ⟨"Rust", "rust", "🦀", "#DEA584"⟩
def pythonLang : LanguageInfo := ⟨"Python", "python", "🐍", "#3572A5"⟩
def jsLang : LanguageInfo := ⟨"JavaScript", "javascript", "📜", "#F7DF1E"⟩
def rubyLang : LanguageInfo := ⟨"Ruby", "ruby", "💎", "#CC342D"⟩
def phpLang : LanguageInfo := ⟨"PHP", "php", "🐘", "#4F5D95"⟩

/-- The Plain Text sentinel descriptor. -/
def plainTextLang : LanguageInfo := ⟨"Plain Text", "plaintext", "📄", "#6B7280"⟩

-- Java pattern:
-- /public\s+(class|static|void)|private\s+(class|static|void)|System\.out\.print
--  |class\s+\w+\s*(extends|implements)?\s*\x7b|void\s+main\s*\(\s*String/
def javaM : Matcher := mAlts
  [ mSeqs [lit "public", spc1, mAlts [lit "class", lit "static", lit "void"]]
  , mSeqs [lit "private", spc1, mAlts [lit "class", lit "static", lit "void"]]
  , lit "System.out.print"
  , mSeqs [lit "class", spc1, wrd1, spc, mOpt (mAlts [lit "extends", lit "implements"]),
      spc, litc '{']
  , mSeqs [lit "void", spc1, lit "main", spc, litc '(', spc, lit "String"] ]

-- C++ pattern:
-- /#include\s*<(iostream|vector|string|algorithm|map|set|queue|stack)>|std::
--  |cout\s*<<|cin\s*>>|using\s+namespace\s+std|nullptr|::\w+\(|template\s*</
def cppM : Matcher := mAlts
  [ mSeqs [lit "#include", spc, litc '<',
      mAlts [lit "iostream", lit "vector", lit "string", lit "algorithm", lit "map",
        lit "set", lit "queue", lit "stack"], litc '>']
  , lit "std::"
  , mSeqs [lit "cout", spc, lit "<<"]
  , mSeqs [lit "cin", spc, lit ">>"]
  , mSeqs [lit "using", spc1, lit "namespace", spc1, lit "std"]
  , lit "nullptr"
  , mSeqs [lit "::", wrd1, litc '(']
  , mSeqs [lit "template", spc, litc '<'] ]

-- C pattern:
-- /#include\s*<(stdio|stdlib|string|math|ctype|time)\.h>|printf\s*\(|scanf\s*\(
--  |int\s+main\s*\(\s*(void)?\s*\)|malloc\s*\(|free\s*\(/
def cM : Matcher := mAlts
  [ mSeqs [lit "#include", spc, litc '<',
      mAlts [lit "stdio", lit "stdlib", lit "string", lit "math", lit "ctype", lit "time"],
      lit ".h>"]
  , mSeqs [lit "printf", spc, litc '(']
  , mSeqs [lit "scanf", spc, litc '(']
  , mSeqs [lit "int", spc1, lit "main", spc, litc '(', spc, mOpt (lit "void"), spc, litc ')']
  , mSeqs [lit "malloc", spc, litc '(']
  , mSeqs [lit "free", spc, litc '('] ]

-- TypeScript pattern:
-- /:\s*(string|number|boolean|void|any|never)\s*[;,\)=\x7b]|interface\s+\w+\s*\x7b
--  |type\s+\w+\s*=|<\w+>\s*\(|React\.(FC|Component)|:\s*\w+\[\]/
def tsM : Matcher := mAlts
  [ mSeqs [litc ':', spc,
      mAlts [lit "string", lit "number", lit "boolean", lit "void", lit "any", lit "never"],
      spc, mCls (fun c => c = ';' || c = ',' || c = ')' || c = '=' || c = '{')]
  , mSeqs [lit "interface", spc1, wrd1, spc, litc '{']
  , mSeqs [lit "type", spc1, wrd1, spc, litc '=']
  , mSeqs [litc '<', wrd1, litc '>', spc, litc '(']
  , mSeqs [lit "React.", mAlts [lit "FC", lit "Component"]]
  , mSeqs [litc ':', spc, wrd1, lit "[]"] ]

-- Go pattern (m flag):
-- /^package\s+\w+|func\s+\w+\s*\([^)]*\)\s*\x7b|func\s+\(\w+\s+\*?\w+\)
--  |fmt\.(Print|Scan)|:=\s*|import\s+\(/m
def goP (prev : Option Char) : Matcher := mAlts
  [ gate (lineStart prev) (mSeqs [lit "package", spc1, wrd1])
  , mSeqs [lit "func", spc1, wrd1, spc, litc '(', mStar (fun c => !(c = ')')), litc ')',
      spc, litc '{']
  , mSeqs [lit "func", spc1, litc '(', wrd1, spc1, mOpt (litc '*'), wrd1, litc ')']
  , mSeqs [lit "fmt.", mAlts [lit "Print", lit "Scan"]]
  , mSeqs [lit ":=", spc]
  , mSeqs [lit "import", spc1, litc '('] ]

-- Rust pattern:
-- /fn\s+\w+\s*\([^)]*\)\s*(->\s*\w+)?\s*\x7b|let\s+mut\s+|println!\s*\(
--  |impl\s+\w+|pub\s+fn|use\s+std::|match\s+\w+\s*\x7b/
def rustM : Matcher := mAlts
  [ mSeqs [lit "fn", spc1, wrd1, spc, litc '(', mStar (fun c => !(c = ')')), litc ')',
      spc, mOpt (mSeqs [lit "->", spc, wrd1]), spc, litc '{']
  , mSeqs [lit "let", spc1, lit "mut", spc1]
  , mSeqs [lit "println!", spc, litc '(']
  , mSeqs [lit "impl", spc1, wrd1]
  , mSeqs [lit "pub", spc1, lit "fn"]
  , mSeqs [lit "use", spc1, lit "std::"]
  , mSeqs [lit "match", spc1, wrd1, spc, litc '{'] ]

-- Python pattern (m flag):
-- /^\s*def\s+\w+\s*\(|^\s*class\s+\w+\s*:|^\s*import\s+\w+|^\s*from\s+\w+\s+import
--  |(?<![.\w])print\s*\(|if\s+__name__\s*==\s*["']__main__["']|^\s*elif\s+|:\s*$/m
def pyP (prev : Option Char) : Matcher := mAlts
  [ gate (lineStart prev) (mSeqs [spc, lit "def", spc1, wrd1, spc, litc '('])
  , gate (lineStart prev) (mSeqs [spc, lit "class", spc1, wrd1, spc, litc ':'])
  , gate (lineStart prev) (mSeqs [spc, lit "import", spc1, wrd1])
  , gate (lineStart prev) (mSeqs [spc, lit "from", spc1, wrd1, spc1, lit "import"])
  , gate (notAfterDotWord prev) (mSeqs [lit "print", spc, litc '('])
  , mSeqs [lit "if", spc1, lit "__name__", spc, lit "==", spc, quoteCls,
      lit "__main__", quoteCls]
  , gate (lineStart prev) (mSeqs [spc, lit "elif", spc1])
  , mSeqs [litc ':', spc, mEndM] ]

-- JavaScript pattern:
-- /\bfunction\s+\w+\s*\(|\bconst\s+\w+\s*=|\blet\s+\w+\s*=|console\.(log|error|warn)\s*\(
--  |=>\s*[\x7b\(]|module\.exports|require\s*\(['"]|document\.|window\./
def jsP (prev : Option Char) : Matcher := mAlts
  [ gate (wordBoundaryBefore prev) (mSeqs [lit "function", spc1, wrd1, spc, litc '('])
  , gate (wordBoundaryBefore prev) (mSeqs [lit "const", spc1, wrd1, spc, litc '='])
  , gate (wordBoundaryBefore prev) (mSeqs [lit "let", spc1, wrd1, spc, litc '='])
  , mSeqs [lit "console.", mAlts [lit "log", lit "error", lit "warn"], spc, litc '(']
  , mSeqs [lit "=>", spc, mCls (fun c => c = '{' || c = '(')]
  , lit "module.exports"
  , mSeqs [lit "require", spc, litc '(', quoteCls]
  , lit "document."
  , lit "window." ]

-- Ruby pattern (m flag):
-- /^\s*def\s+\w+|^\s*end\s*$|puts\s+|require\s+['"]|class\s+\w+\s*<
--  |attr_(accessor|reader|writer)|\.each\s+do/m
def rubyP (prev : Option Char) : Matcher := mAlts
  [ gate (lineStart prev) (mSeqs [spc, lit "def", spc1, wrd1])
  , gate (lineStart prev) (mSeqs [spc, lit "end", spc, mEndM])
  , mSeqs [lit "puts", spc1]
  , mSeqs [lit "require", spc1, quoteCls]
  , mSeqs [lit "class", spc1, wrd1, spc, litc '<']
  , mSeqs [lit "attr_", mAlts [lit "accessor", lit "reader", lit "writer"]]
  , mSeqs [lit ".each", spc1, lit "do"] ]

-- PHP pattern:
-- /<\?php|\$\w+\s*=|echo\s+['"\$]|function\s+\w+\s*\(.*\)\s*\x7b|\$this->|namespace\s+\w+;/
def phpM : Matcher := mAlts
  [ lit "<?php"
  , mSeqs [litc '$', wrd1, spc, litc '=']
  , mSeqs [lit "echo", spc1, mCls (fun c => c = apos || c = '"' || c = '$')]
  , mSeqs [lit "function", spc1, wrd1, spc, litc '(', mStar jsDot, litc ')', spc, litc '{']
  , lit "$this->"
  , mSeqs [lit "namespace", spc1, wrd1, litc ';'] ]

def javaTest (s : String) : Bool := search javaM s.data
def cppTest (s : String) : Bool := search cppM s.data
def cTest (s : String) : Bool := search cM s.data
def tsTest (s : String) : Bool := search tsM s.data
def goTest (s : String) : Bool := searchCtx goP none s.data
def rustTest (s : String) : Bool := search rustM s.data
def pythonTest (s : String) : Bool := searchCtx pyP none s.data
def jsTest (s : String) : Bool := searchCtx jsP none s.data
def rubyTest (s : String) : Bool := searchCtx rubyP none s.data
def phpTest (s : String) : Bool := search phpM s.data

/-- The ordered pattern registry `LANGUAGE_PATTERNS` of the source. -/
def LANGUAGE_PATTERNS : List PatternRule :=
  [ ⟨javaTest, javaLang⟩
  , ⟨cppTest, cppLang⟩
  , ⟨cTest, cLang⟩
  , ⟨tsTest, tsLang⟩
  , ⟨goTest, goLang⟩
  , ⟨rustTest, rustLang⟩
  , ⟨pythonTest, pythonLang⟩
  , ⟨jsTest, jsLang⟩
  , ⟨rubyTest, rubyLang⟩
  , ⟨phpTest, phpLang⟩ ]

/-- JS `String.prototype.trim` (ASCII whitespace suffices for the inputs
considered). -/
def jsTrim (cs : List Char) : List Char :=
  ((cs.dropWhile jsSpace).reverse.dropWhile jsSpace).reverse

/-- JS `String.prototype.split('\n')`. -/
def splitNl : List Char → List (List Char)
  | [] => [[]]
  | c :: rest =>
    if c = '\n' then [] :: splitNl rest
    else
      match splitNl rest with
      | [] => [[c]]
      | l :: ls => (c :: l) :: ls

/-- `code.trim().split('\n').filter(l => l.trim())` of `isPlainText`. -/
def linesOf (code : String) : List (List Char) :=
  (splitNl (jsTrim code.data)).filter (fun l => !(jsTrim l).isEmpty)

-- Short-input heuristic /^(def|function|class|public|private)\s+\w+/
def shortDeclTest (cs : List Char) : Bool :=
  atStart (mSeqs [mAlts [lit "def", lit "function", lit "class", lit "public",
    lit "private"], spc1, wrd1]) cs

/-- The class `[\x7b\x7d;]` of structural symbols. -/
def structClose (c : Char) : Bool := c = '{' || c = '}' || c = ';'

-- Short-input heuristic /[\x7b\x7d;]\s*$/
def shortTermTest (cs : List Char) : Bool :=
  search (mSeqs [mCls structClose, spc, mEnd]) cs

-- Prose signal /^[A-Z][a-zA-Z\s,'"]+[.!?]$/ (sentence-like line)
def sentenceLike (cs : List Char) : Bool :=
  atStart (mSeqs [mCls Char.isUpper,
    mPlus (fun c => c.isAlpha || jsSpace c || c = ',' || c = apos || c = '"'),
    mCls (fun c => c = '.' || c = '!' || c = '?'), mEnd]) cs

/-- The class `[=\[\]\x7b\x7d();]` excluding a line from the prose-phrase
signal. -/
def phraseExcluded (c : Char) : Bool :=
  c = '=' || c = '[' || c = ']' || c = '{' || c = '}' || c = '(' || c = ')' || c = ';'

/-- The conversational phrases of the prose-phrase signal. -/
def phraseList : List (List Char) :=
  [ "your".data
  , "you".data ++ [apos] ++ "re".data
  , "what".data ++ [apos] ++ "s".data
  , "here".data ++ [apos] ++ "s".data
  , "that".data ++ [apos] ++ "s".data
  , "it".data ++ [apos] ++ "s".data
  , "how to".data
  , "this is".data
  , "problem".data
  , "issue".data ]

-- Phrase pattern /\b(your|you're|what's|here's|that's|it's|how to|this is|problem|issue)\b/i
def phraseP (prev : Option Char) : Matcher :=
  gate (wordBoundaryBefore prev)
    (mAlts (phraseList.map (fun p => mSeq (mLitCI p) mNotWordNext)))

-- Prose signal: no structural symbol and a conversational phrase
def conversational (cs : List Char) : Bool :=
  !(cs.any phraseExcluded) && searchCtx phraseP none cs

-- Prose signal /^[•\-\*✅❌]\s+/ (bullet or emoji marker)
def bulletLike (cs : List Char) : Bool :=
  atStart (mSeqs [mCls (fun c => c = '•' || c = '-' || c = '*' || c = '✅' || c = '❌'),
    spc1]) cs

-- Prose signal /^[A-Z][A-Z\s]+$/ (all-caps header)
def allCapsHeader (cs : List Char) : Bool :=
  atStart (mSeqs [mCls Char.isUpper, mPlus (fun c => c.isUpper || jsSpace c), mEnd]) cs

-- Prose signal: length < 30 (code units; the lines considered are in the
-- basic plane) and /^[a-zA-Z\s]+$/ and not /^(if|for|while|def|class|return|import|from)\s/
def shortWordsOnly (cs : List Char) : Bool :=
  decide (cs.length < 30) &&
  atStart (mSeqs [mPlus (fun c => c.isAlpha || jsSpace c), mEnd]) cs &&
  !(atStart (mSeqs [mAlts [lit "if", lit "for", lit "while", lit "def", lit "class",
      lit "return", lit "import", lit "from"], mCls jsSpace]) cs)

/-- The `isProse` disjunction of the source, on a trimmed line. -/
def lineIsProse (cs : List Char) : Bool :=
  sentenceLike cs || conversational cs || bulletLike cs || allCapsHeader cs ||
    shortWordsOnly cs

-- Code signal /^\s*(def|function|class|public|private|void|int|bool)\s+\w+/
def declLine (cs : List Char) : Bool :=
  atStart (mSeqs [spc, mAlts [lit "def", lit "function", lit "class", lit "public",
    lit "private", lit "void", lit "int", lit "bool"], spc1, wrd1]) cs

-- Code signal /^\s*(if|for|while|elif|else|switch|match|try|catch|finally|with|func|fn)\b/
def controlLine (cs : List Char) : Bool :=
  atStart (mSeqs [spc, mAlts [lit "if", lit "for", lit "while", lit "elif", lit "else",
    lit "switch", lit "match", lit "try", lit "catch", lit "finally", lit "with",
    lit "func", lit "fn"], mNotWordNext]) cs

-- Code signal /^\s*(import|from\s+\w+\s+import|#include|require|use|package)\s/
def importLine (cs : List Char) : Bool :=
  atStart (mSeqs [spc, mAlts [lit "import",
    mSeqs [lit "from", spc1, wrd1, spc1, lit "import"],
    lit "#include", lit "require", lit "use", lit "package"], mCls jsSpace]) cs

-- Code signal /[\x7b\x7d;:]\s*$/
def terminatorLine (cs : List Char) : Bool :=
  search (mSeqs [mCls (fun c => c = '{' || c = '}' || c = ';' || c = ':'), spc, mEnd]) cs

-- Code signal /=/ and /[a-z_]\w*\s*(=|\+=|-=)/i
def assignmentLine (cs : List Char) : Bool :=
  cs.any (fun c => c = '=') &&
  search (mSeqs [mCls (fun c => c.isAlpha || c = '_'), mStar jsWord, spc,
    mAlts [lit "=", lit "+=", lit "-="]]) cs

/-- The `isCode` disjunction of the source, on a trimmed line. -/
def lineIsCode (cs : List Char) : Bool :=
  declLine cs || controlLine cs || importLine cs || terminatorLine cs ||
    assignmentLine cs

/-- `proseLines` of the counting loop: lines with a prose signal and no code
signal. -/
def proseLinesOf (code : String) : Nat :=
  ((linesOf code).filter (fun l =>
    lineIsProse (jsTrim l) && !lineIsCode (jsTrim l))).length

/-- `codeLines` of the counting loop: lines with a code signal and no prose
signal. -/
def codeLinesOf (code : String) : Nat :=
  ((linesOf code).filter (fun l =>
    lineIsCode (jsTrim l) && !lineIsProse (jsTrim l))).length

/-- `total = proseLines + codeLines`. -/
def totalOf (code : String) : Nat := proseLinesOf code + codeLinesOf code

/-- Number of occurrences of `\x7b`, `\x7d`, `;` in the whole text:
`code.match(/[\x7b\x7d;]/g)` yields exactly this many matches when positive,
and yields `null` when it is zero. -/
def structCount (code : String) : Nat :=
  (code.data.filter structClose).length

/-- The prose heuristic scorer `isPlainText` of the source.

The ratio test `proseLines / total > 0.4` of the source is an exact
comparison here, written `5 * proseLines > 2 * total`; the binary
floating-point comparison of JS agrees with the exact rational one at all
feasible line counts, and theorem `c3_ratio_threshold` below restates it in
division form.  In the neutral fallback the source computes
`code.match(/[\x7b\x7d;]/g)?.length < 3`: when there is no structural
symbol at all, `match` yields `null`, the optional chaining yields
`undefined`, and `undefined < 3` is `false`, which the zero test models. -/
def isPlainText (code : String) : Bool :=
  if (linesOf code).length < 2 then
    if shortDeclTest (jsTrim code.data) then false
    else if shortTermTest (jsTrim code.data) then false
    else true
  else
    if 0 < totalOf code then
      decide (5 * proseLinesOf code > 2 * totalOf code)
    else
      decide (3 < (linesOf code).length) &&
        (if structCount code = 0 then false else decide (structCount code < 3))

/-- The classifier `detectLanguage` of the source: prose short-circuit, then
first matching registry rule, then the Plain Text sentinel. -/
def detectLanguage (code : String) : LanguageInfo :=
  if isPlainText code then plainTextLang
  else
    match LANGUAGE_PATTERNS.find? (fun r => r.pattern code) with
    | some r => r.lang
    | none => plainTextLang

/-- Substring occurrence, through the same search engine.  `litContains s p`
holds exactly when `p` occurs in `s`. -/
def litContains (s pat : String) : Bool := search (mLit pat.data) s.data

/-- A session of repeated classifier invocations (the classifier is invoked
once per text value, in order). -/
def classifySession (ts : List String) : List LanguageInfo := ts.map detectLanguage

/-- The eleven descriptors the classifier can return. -/
def allDescriptors : List LanguageInfo :=
  [ javaLang, cppLang, cLang, tsLang, goLang, rustLang, pythonLang, jsLang,
    rubyLang, phpLang, plainTextLang ]

/-- Example inputs used by witnesses and counterexamples. -/
def exC1 : String := "How to print( a file."

def exC2cex : String := "public class A\nstd::x printf(y);"

def exC2w : String := "std::cout << x;\nprintf(y);"

def exC3a : String :=
  "Hello there friend.\nGreat day today friend.\nx = 1;\ny = 2;\nz = 3;"

def exC3b : String :=
  "Hello sunny morning.\nAnother good morning friend.\nWhat a lovely day.\nu = 1;\nv = 2;"

def exC4 : String := "x1 y2?\nx1 y2?\nx1 y2?\nx1 y2?"

def exC5 : String := "q7 w8!\nq7 w8!\nq7 w8!\nq7 w8!"

def exC9 : String := "a1 b2?\na1 b2?\na1 b2?\na1 b2?"

theorem nonNil_append (a b : List (List Char)) :
    nonNil (a ++ b) = (nonNil a || nonNil b) := by
  cases a <;> simp [nonNil]

theorem search_of_imp {a b : Matcher}
    (h : ∀ cs, nonNil (a cs) = true → nonNil (b cs) = true) :
    ∀ cs, search a cs = true → search b cs = true := by
  intro cs
  induction cs with
  | nil =>
    intro hs
    simp only [search] at hs ⊢
    exact h [] hs
  | cons c rest ih =>
    intro hs
    simp only [search, Bool.or_eq_true] at hs ⊢
    rcases hs with h1 | h2
    · exact Or.inl (h _ h1)
    · exact Or.inr (ih h2)

theorem nonNil_mAlt (a b : Matcher) (cs : List Char) :
    nonNil (mAlt a b cs) = (nonNil (a cs) || nonNil (b cs)) :=
  nonNil_append _ _

theorem nonNil_mFail (cs : List Char) : nonNil (mFail cs) = false := rfl

theorem cpp_of_std (cs : List Char)
    (h : nonNil (mLit (String.data "std::") cs) = true) :
    nonNil (cppM cs) = true := by
  simp only [cppM, mAlts, nonNil_mAlt, nonNil_mFail, Bool.or_false, Bool.or_eq_true]
  exact Or.inr (Or.inl h)

theorem cppTest_of_contains (s : String) (h : litContains s "std::" = true) :
    cppTest s = true :=
  search_of_imp (fun cs hcs => cpp_of_std cs hcs) s.data h

theorem registry_lang_mem : ∀ r ∈ LANGUAGE_PATTERNS, r.lang ∈ allDescriptors := by
  intro r hr
  simp only [LANGUAGE_PATTERNS, List.mem_cons, List.not_mem_nil, or_false] at hr
  rcases hr with rfl | rfl | rfl | rfl | rfl | rfl | rfl | rfl | rfl | rfl <;> decide

theorem registry_lang_ne : ∀ r ∈ LANGUAGE_PATTERNS, r.lang ≠ plainTextLang := by
  intro r hr
  simp only [LANGUAGE_PATTERNS, List.mem_cons, List.not_mem_nil, or_false] at hr
  rcases hr with rfl | rfl | rfl | rfl | rfl | rfl | rfl | rfl | rfl | rfl <;> decide

theorem isPlainText_false_of_not {s : String} (h : ¬ isPlainText s = true) :
    isPlainText s = false := by
  cases hb : isPlainText s with
  | false => rfl
  | true => exact absurd hb h

theorem detLang_mem (s : String) : detectLanguage s ∈ allDescriptors := by
  by_cases h : isPlainText s = true
  · have hd : detectLanguage s = plainTextLang := by simp [detectLanguage, h]
    rw [hd]; decide
  · have h' : isPlainText s = false := isPlainText_false_of_not h
    rcases hfind : LANGUAGE_PATTERNS.find? (fun r => r.pattern s) with _ | r
    · have hd : detectLanguage s = plainTextLang := by simp [detectLanguage, h', hfind]
      rw [hd]; decide
    · have hd : detectLanguage s = r.lang := by simp [detectLanguage, h', hfind]
      rw [hd]
      exact registry_lang_mem r (List.mem_of_find?_eq_some hfind)

/-- C1: whenever the prose scorer classifies the input as prose, the
classifier returns the Plain Text descriptor without consulting the pattern
registry, so the result is Plain Text even when some language-signature
pattern matches the text. -/
theorem c1_prose_short_circuit (s : String) (h : isPlainText s = true) :
    detectLanguage s = plainTextLang := by
  simp [detectLanguage, h]

theorem c1_witness :
    pythonTest exC1 = true ∧ detectLanguage exC1 = plainTextLang :=
  ⟨by decide, c1_prose_short_circuit exC1 (by decide)⟩

/-- C2 counterexample: a non-prose input that contains both `std::` and
`printf(` but also matches the Java pattern is classified Java, not C++,
because the Java rule precedes the C++ rule in the registry. -/
theorem c2_counterexample :
    isPlainText exC2cex = false ∧ litContains exC2cex "std::" = true ∧
    litContains exC2cex "printf(" = true ∧ detectLanguage exC2cex ≠ cppLang :=
  ⟨by decide, by decide, by decide, by decide⟩

/-- C2 (amended): the registry descriptors appear in the fixed order Java,
C++, C, TypeScript, Go, Rust, Python, JavaScript, Ruby, PHP, and a
non-prose input containing both `std::` and `printf(` that does not match
the Java pattern is classified C++, not C. -/
theorem c2_registry_precedence :
    LANGUAGE_PATTERNS.map PatternRule.lang =
      [ javaLang, cppLang, cLang, tsLang, goLang, rustLang, pythonLang, jsLang,
        rubyLang, phpLang ] ∧
    ∀ s : String, isPlainText s = false → javaTest s = false →
      litContains s "std::" = true → litContains s "printf(" = true →
      (detectLanguage s = cppLang ∧ cppLang ≠ cLang) := by
  refine ⟨rfl, fun s h1 h2 h3 _ => ⟨?_, by decide⟩⟩
  have hcpp : cppTest s = true := cppTest_of_contains s h3
  simp [detectLanguage, h1, LANGUAGE_PATTERNS, List.find?, h2, hcpp]

theorem c2_witness : detectLanguage exC2w = cppLang :=
  (c2_registry_precedence.2 exC2w (by decide) (by decide) (by decide) (by decide)).1

/-- C3: for a multi-line input (at least two non-empty lines) whose
per-line bucketing gives `total = proseLines + codeLines > 0`, the prose
scorer returns true exactly when `proseLines / total > 0.4`, with strict
greater-than. -/
theorem c3_ratio_threshold (s : String) (h2 : 2 ≤ (linesOf s).length)
    (h0 : 0 < totalOf s) :
    isPlainText s = true ↔
      ((proseLinesOf s : ℚ) / (totalOf s : ℚ) > 0.4) := by
  have hlt : ¬ ((linesOf s).length < 2) := by omega
  rw [isPlainText, if_neg hlt, if_pos h0, decide_eq_true_eq]
  have ht : (0 : ℚ) < (totalOf s : ℚ) := by exact_mod_cast h0
  rw [gt_iff_lt, gt_iff_lt, lt_div_iff₀ ht]
  constructor
  · intro h
    have h' : ((2 * totalOf s : ℕ) : ℚ) < ((5 * proseLinesOf s : ℕ) : ℚ) := by
      exact_mod_cast h
    push_cast at h'
    nlinarith [h']
  · intro h
    have h' : ((2 * totalOf s : ℕ) : ℚ) < ((5 * proseLinesOf s : ℕ) : ℚ) := by
      push_cast
      nlinarith [h]
    exact_mod_cast h'

theorem c3_witness : isPlainText exC3a = false ∧ isPlainText exC3b = true := by
  constructor
  · have h := c3_ratio_threshold exC3a (by decide) (by decide)
    have hp : proseLinesOf exC3a = 2 := by decide
    have ht : totalOf exC3a = 5 := by decide
    rw [hp, ht] at h
    cases hb : isPlainText exC3a with
    | false => rfl
    | true => exact absurd (h.mp hb) (by norm_num)
  · have h := c3_ratio_threshold exC3b (by decide) (by decide)
    have hp : proseLinesOf exC3b = 3 := by decide
    have ht : totalOf exC3b = 5 := by decide
    rw [hp, ht] at h
    exact h.mpr (by norm_num)

/-- C4: the claim holds for one or two structural symbols but fails for
zero.  At the failing input below (four neutral lines, more than three
lines, no `\x7b`, `\x7d` or `;` at all) the scorer returns false although
the specified fallback — prose when the line count exceeds 3 and the
structural-symbol count is fewer than 3, including zero — requires true:
the source compares `code.match(/[\x7b\x7d;]/g)?.length < 3`, and with a
null match this is `undefined < 3`, which is false. -/
theorem c4_fallback_zero_structural :
    3 < (linesOf exC4).length ∧ totalOf exC4 = 0 ∧ structCount exC4 = 0 ∧
    isPlainText exC4 = false :=
  ⟨by decide, by decide, by decide, by decide⟩

/-- C5 counterexample: a non-prose input that matches no registry pattern
receives the Plain Text descriptor while `isPlainText` is false, refuting
the claimed equivalence in the right-to-left direction. -/
theorem c5_counterexample :
    isPlainText exC5 = false ∧ detectLanguage exC5 = plainTextLang :=
  ⟨by decide, by decide⟩

/-- C5 (amended): if the prose verdict is true the descriptor is the Plain
Text sentinel; conversely, the Plain Text sentinel implies that the prose
verdict is true or that no registry predicate matched the input. -/
theorem c5_mutual_exclusivity (s : String) :
    (isPlainText s = true → detectLanguage s = plainTextLang) ∧
    (detectLanguage s = plainTextLang →
      isPlainText s = true ∨
        LANGUAGE_PATTERNS.find? (fun r => r.pattern s) = none) := by
  constructor
  · intro h
    simp [detectLanguage, h]
  · intro h
    by_cases hp : isPlainText s = true
    · exact Or.inl hp
    · have h' : isPlainText s = false := isPlainText_false_of_not hp
      rcases hfind : LANGUAGE_PATTERNS.find? (fun r => r.pattern s) with _ | r
      · exact Or.inr hfind
      · exfalso
        have hdl : detectLanguage s = r.lang := by simp [detectLanguage, h', hfind]
        rw [hdl] at h
        exact registry_lang_ne r (List.mem_of_find?_eq_some hfind) h

theorem c5_witness : detectLanguage "Nice weather today." = plainTextLang :=
  (c5_mutual_exclusivity "Nice weather today.").1 (by decide)

/-- C6: on short input (fewer than two non-empty lines) the prose scorer
returns false exactly when the trimmed text begins with one of the
declaration keywords def, function, class, public, private followed by
whitespace and an identifier, or ends with a structural terminator
character; otherwise it returns true. -/
theorem c6_short_input (s : String) (h : (linesOf s).length < 2) :
    isPlainText s =
      (!(shortDeclTest (jsTrim s.data) || shortTermTest (jsTrim s.data))) := by
  rw [isPlainText, if_pos h]
  cases hd : shortDeclTest (jsTrim s.data) <;>
    cases ht : shortTermTest (jsTrim s.data) <;> simp [hd, ht]

theorem c6_witness : isPlainText "" = true ∧ detectLanguage "" = plainTextLang := by
  constructor
  · rw [c6_short_input "" (by decide)]
    decide
  · decide

/-- C7: the classifier is total — every input string, the empty and
whitespace-only strings included, is mapped to a defined descriptor, either
the descriptor of some registry rule or the Plain Text sentinel. -/
theorem c7_total (s : String) :
    detectLanguage s = plainTextLang ∨
      ∃ r ∈ LANGUAGE_PATTERNS, detectLanguage s = r.lang := by
  by_cases h : isPlainText s = true
  · exact Or.inl (by simp [detectLanguage, h])
  · have h' : isPlainText s = false := isPlainText_false_of_not h
    rcases hfind : LANGUAGE_PATTERNS.find? (fun r => r.pattern s) with _ | r
    · exact Or.inl (by simp [detectLanguage, h', hfind])
    · exact Or.inr ⟨r, List.mem_of_find?_eq_some hfind,
        by simp [detectLanguage, h', hfind]⟩

/-- C8: the classifier is deterministic — within any session of
invocations, the result produced for the call on `t` equals the pure
classifier value of `t` (hence all four descriptor fields), independently
of whatever calls were made before or after. -/
theorem c8_deterministic (pre post pre2 post2 : List String) (t : String) :
    (classifySession (pre ++ t :: post)).get? pre.length =
      some (detectLanguage t) ∧
    (classifySession (pre ++ t :: post)).get? pre.length =
      (classifySession (pre2 ++ t :: post2)).get? pre2.length := by
  have key : ∀ (l r : List String),
      (classifySession (l ++ t :: r)).get? l.length = some (detectLanguage t) := by
    intro l r
    induction l with
    | nil => simp [classifySession]
    | cons a l ih => simpa [classifySession] using ih
  exact ⟨key pre post, by rw [key pre post, key pre2 post2]⟩

/-- C9: for a multi-line input in which every line is bucketed neutral
(total = 0) and which contains no `\x7b`, `\x7d` or `;` at all, the prose
scorer returns false regardless of the line count, because the comparison
`code.match(/[\x7b\x7d;]/g)?.length < 3` on a null match yields false. -/
theorem c9_zero_structural_not_prose (s : String)
    (h2 : 2 ≤ (linesOf s).length) (h0 : totalOf s = 0)
    (hs : structCount s = 0) :
    isPlainText s = false := by
  have hlt : ¬ ((linesOf s).length < 2) := by omega
  have h0' : ¬ (0 < totalOf s) := by omega
  rw [isPlainText, if_neg hlt, if_neg h0', if_pos hs, Bool.and_false]

theorem c9_witness : 3 < (linesOf exC9).length ∧ isPlainText exC9 = false :=
  ⟨by decide, c9_zero_structural_not_prose exC9 (by decide) (by decide) (by decide)⟩

/-- C10: every classification result is one of exactly eleven fixed
descriptors — the ten registry languages or the Plain Text sentinel — and
whenever the returned name is "Plain Text" the editor mode id is
"plaintext". -/
theorem c10_closed_descriptor_set (s : String) :
    detectLanguage s ∈ allDescriptors ∧
      ((detectLanguage s).name = "Plain Text" →
        (detectLanguage s).monacoId = "plaintext") := by
  have hmem : detectLanguage s ∈ allDescriptors := detLang_mem s
  refine ⟨hmem, fun hname => ?_⟩
  have hall : ∀ l ∈ allDescriptors, l.name = "Plain Text" →
      l.monacoId = "plaintext" := by decide
  exact hall _ hmem hname

theorem c10_witness :
    detectLanguage "Good evening everyone tonight." ∈ allDescriptors ∧
      (detectLanguage "Good evening everyone tonight.").monacoId = "plaintext" :=
  ⟨(c10_closed_descriptor_set "Good evening everyone tonight.").1,
    (c10_closed_descriptor_set "Good evening everyone tonight.").2 (by decide)⟩

end DeepCodeX
